import Mathlib

/-!
Shallow embedding of the funcan-rs CANopen client core: the SDO frame codec
(src/sdo.rs), the abort codes (src/sdo/abort.rs), the COB-ID router
(src/cobid.rs), the dictionary index (src/dictionary.rs) and the SDO client
state machine (src/sdo/machines.rs).

Machine integers are modelled as Nat. A bitwise mask `x & (2^k - 1)` is
rendered `x % 2^k`, a shift `x >> k` as `x / 2^k`, `x << k` as `x * 2^k`,
and a bitwise-or of values occupying disjoint bit ranges as `+`.
Rust panics (failed `copy_from_slice` length checks, `panic!` arms,
out-of-range slicing) are rendered by returning `none` from an
Option-valued function.
-/

/-- Decidable equality for `Except`, used to evaluate codec results on
concrete inputs. -/
instance {ε α : Type} [DecidableEq ε] [DecidableEq α] : DecidableEq (Except ε α) :=
  fun a b =>
    match a, b with
    | .error e1, .error e2 =>
        if h : e1 = e2 then .isTrue (by rw [h])
        else .isFalse (by intro hh; cases hh; exact h rfl)
    | .ok x, .ok y =>
        if h : x = y then .isTrue (by rw [h])
        else .isFalse (by intro hh; cases hh; exact h rfl)
    | .error _, .ok _ => .isFalse (by intro hh; cases hh)
    | .ok _, .error _ => .isFalse (by intro hh; cases hh)

set_option maxRecDepth 16384

namespace Funcan

/-- Embeds `Index` from src/dictionary.rs: pair of a u16 index and a u8 sub-index. -/
structure Index where
  index : Nat
  sub : Nat
  deriving DecidableEq, Repr

def Index.new (index sub : Nat) : Index := { index := index, sub := sub }

/-- Well-formedness of the machine-integer fields of an `Index`. -/
def Index.wf (ix : Index) : Prop := ix.index < 65536 ∧ ix.sub < 256

/-- Embeds `Index::write_to_slice`: bytes `[index & 0xFF, (index >> 8) & 0xFF, sub]`. -/
def Index.write_to_slice (ix : Index) : Nat × Nat × Nat :=
  (ix.index % 256, ix.index / 256 % 256, ix.sub)

/-- Embeds `Index::read_from_slice`: `((buf[1] as u16) << 8) | (buf[0] as u16)` with
the sub-index in `buf[2]`; for u8 inputs the `|` is addition of disjoint parts. -/
def Index.read_from_slice (b0 b1 b2 : Nat) : Index :=
  { index := b1 * 256 + b0, sub := b2 }

/-- Codec errors from src/sdo.rs `Error`. -/
inductive CodecError where
  | UnsupportedTransferType (n : Nat)
  | UnknownClientCommandSpecifier (n : Nat)
  | UnknownServerCommandSpecifier (n : Nat)
  deriving DecidableEq, Repr

/-- Embeds `TransferType` from src/sdo.rs. -/
inductive TransferType where
  | Normal
  | NormalUnspecifiedSize
  | ExpeditedWithSize (n : Nat)
  deriving DecidableEq, Repr

/-- Embeds `impl Into<u8> for TransferType`; `0x03 | ((4-n) << 2)` becomes
`0x03 + (4-n)*4` (disjoint bit ranges). -/
def TransferType.intoU8 : TransferType → Nat
  | .Normal => 0x01
  | .ExpeditedWithSize n => 0x03 + (4 - n) * 4
  | .NormalUnspecifiedSize => 0x00

/-- Embeds `impl TryFrom<u8> for TransferType`: matches on `x & 0x03`; the `e=1,s=0`
pair decodes as `ExpeditedWithSize(0)`; the error arm is unreachable. -/
def TransferType.tryFromU8 (x : Nat) : Except CodecError TransferType :=
  match x % 4 with
  | 1 => .ok .Normal
  | 2 => .ok (.ExpeditedWithSize 0)
  | 3 => .ok (.ExpeditedWithSize (4 - x / 4 % 4))
  | 0 => .ok .NormalUnspecifiedSize
  | t => .error (.UnsupportedTransferType t)

/-- Embeds `ToggleBit` newtype over bool from src/sdo.rs. -/
structure ToggleBit where
  val : Bool
  deriving DecidableEq, Repr

/-- Embeds `impl Not for ToggleBit`. -/
def ToggleBit.not (t : ToggleBit) : ToggleBit := ⟨!t.val⟩

/-- Embeds `impl Into<u8> for ToggleBit`: `(b as u8) << 4`. -/
def ToggleBit.intoU8 (t : ToggleBit) : Nat := if t.val then 16 else 0

/-- Embeds `impl From<u8> for ToggleBit`: `(x & 0x10) > 0`, i.e. bit 4. -/
def ToggleBit.fromU8 (x : Nat) : ToggleBit := ⟨0 < x / 16 % 2⟩

/-- Embeds `ClientCommandSpecifier` from src/sdo.rs. -/
inductive ClientCommandSpecifier where
  | InitDownload
  | DownloadSegment
  | InitUpload
  | UploadSegment
  | AbortTransfer
  deriving DecidableEq, Repr

/-- Embeds `impl Into<u8> for ClientCommandSpecifier`: `ccs << 5`. -/
def ClientCommandSpecifier.intoU8 : ClientCommandSpecifier → Nat
  | .InitDownload => 1 * 32
  | .DownloadSegment => 0 * 32
  | .InitUpload => 2 * 32
  | .UploadSegment => 3 * 32
  | .AbortTransfer => 4 * 32

/-- Embeds `impl TryFrom<u8> for ClientCommandSpecifier`: matches on `x & 0xe0`,
rendered `x / 32 % 8 * 32`. -/
def ClientCommandSpecifier.tryFromU8 (x : Nat) : Except CodecError ClientCommandSpecifier :=
  let cs := x / 32 % 8 * 32
  if cs = 0x00 then .ok .DownloadSegment
  else if cs = 0x20 then .ok .InitDownload
  else if cs = 0x40 then .ok .InitUpload
  else if cs = 0x60 then .ok .UploadSegment
  else if cs = 0x80 then .ok .AbortTransfer
  else .error (.UnknownClientCommandSpecifier (cs / 32))

/-- Embeds `ServerCommandSpecifier` from src/sdo.rs. -/
inductive ServerCommandSpecifier where
  | InitDownloadAck
  | DownloadSegmentAck
  | InitUpload
  | UploadSegment
  deriving DecidableEq, Repr

/-- Embeds `impl Into<u8> for ServerCommandSpecifier`. -/
def ServerCommandSpecifier.intoU8 : ServerCommandSpecifier → Nat
  | .InitDownloadAck => 3 * 32
  | .DownloadSegmentAck => 1 * 32
  | .InitUpload => 2 * 32
  | .UploadSegment => 0 * 32

/-- Embeds `impl TryFrom<u8> for ServerCommandSpecifier`: matches on `x & 0xe0`. -/
def ServerCommandSpecifier.tryFromU8 (x : Nat) : Except CodecError ServerCommandSpecifier :=
  let cs := x / 32 % 8 * 32
  if cs = 0x00 then .ok .UploadSegment
  else if cs = 0x20 then .ok .DownloadSegmentAck
  else if cs = 0x40 then .ok .InitUpload
  else if cs = 0x60 then .ok .InitDownloadAck
  else .error (.UnknownServerCommandSpecifier (cs / 32))

/-- A `[u8; 4]` array. -/
structure B4 where
  b0 : Nat
  b1 : Nat
  b2 : Nat
  b3 : Nat
  deriving DecidableEq, Repr

/-- Machine-integer bounds of a `[u8; 4]`. -/
def B4.wf (d : B4) : Prop := d.b0 < 256 ∧ d.b1 < 256 ∧ d.b2 < 256 ∧ d.b3 < 256

/-- A `[u8; 7]` array. -/
structure B7 where
  b0 : Nat
  b1 : Nat
  b2 : Nat
  b3 : Nat
  b4 : Nat
  b5 : Nat
  b6 : Nat
  deriving DecidableEq, Repr

/-- Machine-integer bounds of a `[u8; 7]`. -/
def B7.wf (d : B7) : Prop :=
  d.b0 < 256 ∧ d.b1 < 256 ∧ d.b2 < 256 ∧ d.b3 < 256 ∧ d.b4 < 256 ∧ d.b5 < 256 ∧ d.b6 < 256

/-- A `[u8; 8]` SDO payload. -/
structure Bytes8 where
  b0 : Nat
  b1 : Nat
  b2 : Nat
  b3 : Nat
  b4 : Nat
  b5 : Nat
  b6 : Nat
  b7 : Nat
  deriving DecidableEq, Repr

/-- Embeds `u32::to_le_bytes`. -/
def u32ToLeBytes (x : Nat) : Nat × Nat × Nat × Nat :=
  (x % 256, x / 256 % 256, x / 65536 % 256, x / 16777216 % 256)

/-- Embeds `u32::from_le_bytes` on u8 inputs: disjoint byte lanes summed. -/
def u32FromLeBytes (b0 b1 b2 b3 : Nat) : Nat :=
  b0 + b1 * 256 + b2 * 65536 + b3 * 16777216

/-- Embeds `AbortCode` from src/sdo/abort.rs. -/
inductive AbortCode where
  | ToggleBitNotAlternated
  | SDOProtocolTimedOut
  | ClientServerCommandSpecifierNotValidOrUnknown
  | InvalidBlockSize
  | InvalidSequenceNumber
  | CrcError
  | OutOfMemory
  | UnsupportedAccessToAnObject
  | AttemptToReadAWriteOnlyObject
  | AttemptToWriteAReadOnlyObject
  | ObjectDoesNotExistInTheObjectDictionary
  | ObjectCannotBeMappedToThePDO
  | TheNumberAndLengthOfTheObjectsToBeMappedWouldExceedPdoLength
  | GeneralParameterIncompatibilityReason
  | GeneralInternalIncompatibilityInTheDevice
  | AccessFailedDueToAnHardwareError
  | DataTypeDoesNotMatchLengthOfServiceParameterDoesNotMatch
  | DataTypeDoesNotMatchLengthOfServiceParameterTooHigh
  | DataTypeDoesNotMatchLengthOfServiceParameterTooLow
  | SubIndexDoesNotExist
  | InvalidValueForParameterDownloadOnly
  | ValueOfParameterWrittenTooHighDownloadOnly
  | ValueOfParameterWrittenTooLowDownloadOnly
  | MaximumValueIsLessThanMinimumValue
  | ResourceNotAvailableSdoConnection
  | GeneralError
  | DataCannotBeTransferredOrStoredToTheApplication
  | DataCannotBeTransferredOrStoredToTheApplicationBecauseOfLocalControl
  | DataCannotBeTransferredOrStoredToTheApplicationBecauseOfThePresentDeviceState
  | ObjectDictionaryDynamicGenerationFailsOrNoObjectDictionaryIsPresent
  | NoDataAvailable
  deriving DecidableEq, Repr

/-- Embeds `impl Into<u32> for AbortCode`: the `#[repr(u32)]` discriminants. -/
def AbortCode.intoU32 : AbortCode → Nat
  | .ToggleBitNotAlternated => 0x05030000
  | .SDOProtocolTimedOut => 0x05040000
  | .ClientServerCommandSpecifierNotValidOrUnknown => 0x05040001
  | .InvalidBlockSize => 0x05040002
  | .InvalidSequenceNumber => 0x05040003
  | .CrcError => 0x05040004
  | .OutOfMemory => 0x05040005
  | .UnsupportedAccessToAnObject => 0x06010000
  | .AttemptToReadAWriteOnlyObject => 0x06010001
  | .AttemptToWriteAReadOnlyObject => 0x06010002
  | .ObjectDoesNotExistInTheObjectDictionary => 0x06020000
  | .ObjectCannotBeMappedToThePDO => 0x06040041
  | .TheNumberAndLengthOfTheObjectsToBeMappedWouldExceedPdoLength => 0x06040042
  | .GeneralParameterIncompatibilityReason => 0x06040043
  | .GeneralInternalIncompatibilityInTheDevice => 0x06040047
  | .AccessFailedDueToAnHardwareError => 0x06060000
  | .DataTypeDoesNotMatchLengthOfServiceParameterDoesNotMatch => 0x06070010
  | .DataTypeDoesNotMatchLengthOfServiceParameterTooHigh => 0x06070012
  | .DataTypeDoesNotMatchLengthOfServiceParameterTooLow => 0x06070013
  | .SubIndexDoesNotExist => 0x06090011
  | .InvalidValueForParameterDownloadOnly => 0x06090030
  | .ValueOfParameterWrittenTooHighDownloadOnly => 0x06090031
  | .ValueOfParameterWrittenTooLowDownloadOnly => 0x06090032
  | .MaximumValueIsLessThanMinimumValue => 0x06090036
  | .ResourceNotAvailableSdoConnection => 0x060A0023
  | .GeneralError => 0x08000000
  | .DataCannotBeTransferredOrStoredToTheApplication => 0x08000020
  | .DataCannotBeTransferredOrStoredToTheApplicationBecauseOfLocalControl => 0x08000021
  | .DataCannotBeTransferredOrStoredToTheApplicationBecauseOfThePresentDeviceState => 0x08000022
  | .ObjectDictionaryDynamicGenerationFailsOrNoObjectDictionaryIsPresent => 0x08000023
  | .NoDataAvailable => 0x08000024

/-- Embeds `impl From<u32> for AbortCode`: unknown codes map to `GeneralError`. -/
def AbortCode.fromU32 (value : Nat) : AbortCode :=
  if value = 0x05030000 then .ToggleBitNotAlternated
  else if value = 0x05040000 then .SDOProtocolTimedOut
  else if value = 0x05040001 then .ClientServerCommandSpecifierNotValidOrUnknown
  else if value = 0x05040002 then .InvalidBlockSize
  else if value = 0x05040003 then .InvalidSequenceNumber
  else if value = 0x05040004 then .CrcError
  else if value = 0x05040005 then .OutOfMemory
  else if value = 0x06010000 then .UnsupportedAccessToAnObject
  else if value = 0x06010001 then .AttemptToReadAWriteOnlyObject
  else if value = 0x06010002 then .AttemptToWriteAReadOnlyObject
  else if value = 0x06020000 then .ObjectDoesNotExistInTheObjectDictionary
  else if value = 0x06040041 then .ObjectCannotBeMappedToThePDO
  else if value = 0x06040042 then .TheNumberAndLengthOfTheObjectsToBeMappedWouldExceedPdoLength
  else if value = 0x06040043 then .GeneralParameterIncompatibilityReason
  else if value = 0x06040047 then .GeneralInternalIncompatibilityInTheDevice
  else if value = 0x06060000 then .AccessFailedDueToAnHardwareError
  else if value = 0x06070010 then .DataTypeDoesNotMatchLengthOfServiceParameterDoesNotMatch
  else if value = 0x06070012 then .DataTypeDoesNotMatchLengthOfServiceParameterTooHigh
  else if value = 0x06070013 then .DataTypeDoesNotMatchLengthOfServiceParameterTooLow
  else if value = 0x06090011 then .SubIndexDoesNotExist
  else if value = 0x06090030 then .InvalidValueForParameterDownloadOnly
  else if value = 0x06090031 then .ValueOfParameterWrittenTooHighDownloadOnly
  else if value = 0x06090032 then .ValueOfParameterWrittenTooLowDownloadOnly
  else if value = 0x06090036 then .MaximumValueIsLessThanMinimumValue
  else if value = 0x060A0023 then .ResourceNotAvailableSdoConnection
  else if value = 0x08000000 then .GeneralError
  else if value = 0x08000020 then .DataCannotBeTransferredOrStoredToTheApplication
  else if value = 0x08000021 then
    .DataCannotBeTransferredOrStoredToTheApplicationBecauseOfLocalControl
  else if value = 0x08000022 then
    .DataCannotBeTransferredOrStoredToTheApplicationBecauseOfThePresentDeviceState
  else if value = 0x08000023 then
    .ObjectDictionaryDynamicGenerationFailsOrNoObjectDictionaryIsPresent
  else if value = 0x08000024 then .NoDataAvailable
  else .GeneralError

/-- Embeds `ClientRequest` from src/sdo.rs (identical to the copy in
src/sdo/machines.rs). -/
inductive ClientRequest where
  | InitUpload (ix : Index)
  | UploadSegment (t : ToggleBit)
  | InitSingleSegmentDownload (ix : Index) (len : Nat) (data : B4)
  | InitMultipleDownload (ix : Index) (len : Nat)
  | DownloadSegment (t : ToggleBit) (c : Bool) (n : Nat) (data : B7)
  | AbortTransfer (ix : Index) (code : AbortCode)
  deriving DecidableEq, Repr

/-- Embeds `impl Into<[u8; 8]> for ClientRequest`. The `panic!` arms for
out-of-range lengths return `none`; `|` of disjoint bit fields is `+`. -/
def ClientRequest.intoBytes : ClientRequest → Option Bytes8
  | .InitUpload ix =>
      let (i0, i1, i2) := ix.write_to_slice
      some ⟨ClientCommandSpecifier.InitUpload.intoU8, i0, i1, i2, 0, 0, 0, 0⟩
  | .UploadSegment t =>
      some ⟨ClientCommandSpecifier.UploadSegment.intoU8 + t.intoU8, 0, 0, 0, 0, 0, 0, 0⟩
  | .InitSingleSegmentDownload ix len data =>
      if len ≤ 4 then
        let (i0, i1, i2) := ix.write_to_slice
        some ⟨ClientCommandSpecifier.InitDownload.intoU8 + (4 - len) * 4 + 2 + 1,
              i0, i1, i2, data.b0, data.b1, data.b2, data.b3⟩
      else none
  | .InitMultipleDownload ix len =>
      let (i0, i1, i2) := ix.write_to_slice
      let (l0, l1, l2, l3) := u32ToLeBytes len
      some ⟨ClientCommandSpecifier.InitDownload.intoU8 + (if len > 0 then 1 else 0),
            i0, i1, i2, l0, l1, l2, l3⟩
  | .DownloadSegment t c n data =>
      if n ≤ 7 then
        some ⟨ClientCommandSpecifier.DownloadSegment.intoU8 + t.intoU8 + (7 - n) * 2 +
                (if c then 1 else 0),
              data.b0, data.b1, data.b2, data.b3, data.b4, data.b5, data.b6⟩
      else none
  | .AbortTransfer ix code =>
      let (i0, i1, i2) := ix.write_to_slice
      let (c0, c1, c2, c3) := u32ToLeBytes code.intoU32
      some ⟨ClientCommandSpecifier.AbortTransfer.intoU8, i0, i1, i2, c0, c1, c2, c3⟩

/-- Embeds `impl TryFrom<[u8; 8]> for ClientRequest`. The outer `Option` models the
panic in the `(e=1, s=0)` arm, where `data[..3].copy_from_slice(&req[4..8])`
copies a 4-byte slice into a 3-byte one. -/
def ClientRequest.tryFromBytes (req : Bytes8) : Option (Except CodecError ClientRequest) :=
  match ClientCommandSpecifier.tryFromU8 req.b0 with
  | .error e => some (.error e)
  | .ok code =>
    match code with
    | .InitUpload =>
        some (.ok (.InitUpload (Index.read_from_slice req.b1 req.b2 req.b3)))
    | .UploadSegment =>
        some (.ok (.UploadSegment (ToggleBit.fromU8 req.b0)))
    | .InitDownload =>
        let ix := Index.read_from_slice req.b1 req.b2 req.b3
        let isExpedited := 0 < req.b0 / 2 % 2
        let isSized := 0 < req.b0 % 2
        if isExpedited then
          if isSized then
            let len := 4 - req.b0 / 4 % 4
            some (.ok (.InitSingleSegmentDownload ix len ⟨req.b4, req.b5, req.b6, req.b7⟩))
          else none
        else
          if isSized then
            some (.ok (.InitMultipleDownload ix
              (u32FromLeBytes req.b4 req.b5 req.b6 req.b7)))
          else some (.ok (.InitMultipleDownload ix 0))
    | .DownloadSegment =>
        let toggleBit := ToggleBit.fromU8 req.b0
        let isEnd := 0 < req.b0 % 2
        let n := 7 - req.b0 / 2 % 8
        some (.ok (.DownloadSegment toggleBit isEnd n
          ⟨req.b1, req.b2, req.b3, req.b4, req.b5, req.b6, req.b7⟩))
    | .AbortTransfer =>
        let ix := Index.read_from_slice req.b1 req.b2 req.b3
        some (.ok (.AbortTransfer ix
          (AbortCode.fromU32 (u32FromLeBytes req.b4 req.b5 req.b6 req.b7))))

/-- Embeds `ServerResponse` from src/sdo.rs (identical to the copy in
src/sdo/machines.rs). -/
inductive ServerResponse where
  | UploadSingleSegment (ix : Index) (n : Nat) (data : B4)
  | UploadInitMultiples (ix : Index) (size : Nat)
  | UploadMultiples (t : ToggleBit) (isEnd : Bool) (len : Nat) (data : B7)
  | DownloadInitAck (ix : Index)
  | DownloadSegmentAck (t : ToggleBit)
  deriving DecidableEq, Repr

/-- Embeds `impl Into<[u8; 8]> for ServerResponse`; panic arms return `none`;
`UploadSingleSegment` encodes the transfer type of `len & 0x3`. -/
def ServerResponse.intoBytes : ServerResponse → Option Bytes8
  | .UploadSingleSegment ix len data =>
      if len > 4 then none
      else
        let ty := (TransferType.ExpeditedWithSize (len % 4)).intoU8
        let (i0, i1, i2) := ix.write_to_slice
        some ⟨ServerCommandSpecifier.InitUpload.intoU8 + ty, i0, i1, i2,
              data.b0, data.b1, data.b2, data.b3⟩
  | .UploadInitMultiples ix len =>
      let ty := if len = 0 then TransferType.NormalUnspecifiedSize.intoU8
                else TransferType.Normal.intoU8
      let (i0, i1, i2) := ix.write_to_slice
      let (l0, l1, l2, l3) := u32ToLeBytes len
      some ⟨ServerCommandSpecifier.InitUpload.intoU8 + ty, i0, i1, i2, l0, l1, l2, l3⟩
  | .UploadMultiples tb isEnd len data =>
      if len ≤ 7 then
        some ⟨ServerCommandSpecifier.UploadSegment.intoU8 + (7 - len) * 2 +
                (if isEnd then 1 else 0) + tb.intoU8,
              data.b0, data.b1, data.b2, data.b3, data.b4, data.b5, data.b6⟩
      else none
  | .DownloadInitAck ix =>
      let (i0, i1, i2) := ix.write_to_slice
      some ⟨ServerCommandSpecifier.InitDownloadAck.intoU8, i0, i1, i2, 0, 0, 0, 0⟩
  | .DownloadSegmentAck t =>
      some ⟨ServerCommandSpecifier.DownloadSegmentAck.intoU8 + t.intoU8,
            0, 0, 0, 0, 0, 0, 0⟩

/-- Embeds `impl TryFrom<[u8; 8]> for ServerResponse`. -/
def ServerResponse.tryFromBytes (req : Bytes8) : Except CodecError ServerResponse :=
  match ServerCommandSpecifier.tryFromU8 req.b0 with
  | .error e => .error e
  | .ok code =>
    match code with
    | .InitUpload =>
        let ix := Index.read_from_slice req.b1 req.b2 req.b3
        match TransferType.tryFromU8 req.b0 with
        | .error e => .error e
        | .ok .Normal =>
            .ok (.UploadInitMultiples ix (u32FromLeBytes req.b4 req.b5 req.b6 req.b7))
        | .ok (.ExpeditedWithSize n) =>
            .ok (.UploadSingleSegment ix n ⟨req.b4, req.b5, req.b6, req.b7⟩)
        | .ok .NormalUnspecifiedSize =>
            .ok (.UploadInitMultiples ix 0)
    | .UploadSegment =>
        let toggle := ToggleBit.fromU8 req.b0
        let last := req.b0 % 2 = 1
        let len := 7 - req.b0 / 2 % 8
        .ok (.UploadMultiples toggle last len
          ⟨req.b1, req.b2, req.b3, req.b4, req.b5, req.b6, req.b7⟩)
    | .InitDownloadAck =>
        .ok (.DownloadInitAck (Index.read_from_slice req.b1 req.b2 req.b3))
    | .DownloadSegmentAck =>
        .ok (.DownloadSegmentAck (ToggleBit.fromU8 req.b0))

/-- Validity of a `ClientRequest` in the sense of claim C3: the expedited
download length lies in `1..=4`, the segment length in `0..=7`, and all
machine-integer fields are in range. -/
def ClientRequest.valid : ClientRequest → Prop
  | .InitUpload ix => ix.wf
  | .UploadSegment _ => True
  | .InitSingleSegmentDownload ix len d => ix.wf ∧ 1 ≤ len ∧ len ≤ 4 ∧ d.wf
  | .InitMultipleDownload ix len => ix.wf ∧ len < 4294967296
  | .DownloadSegment _ _ n d => n ≤ 7 ∧ d.wf
  | .AbortTransfer ix _ => ix.wf

/-- Validity of a `ServerResponse`: as claim C3 states it except that the
expedited upload size is restricted to `1..=4` (the `n = 0` case is the
counterexample to the claim as stated). -/
def ServerResponse.valid : ServerResponse → Prop
  | .UploadSingleSegment ix n d => ix.wf ∧ 1 ≤ n ∧ n ≤ 4 ∧ d.wf
  | .UploadInitMultiples ix len => ix.wf ∧ len < 4294967296
  | .UploadMultiples _ _ n d => n ≤ 7 ∧ d.wf
  | .DownloadInitAck ix => ix.wf
  | .DownloadSegmentAck _ => True

/-- Encode, then decode, a client request. -/
def clientRoundTrip (r : ClientRequest) : Option (Except CodecError ClientRequest) :=
  r.intoBytes.bind ClientRequest.tryFromBytes

/-- Encode, then decode, a server response. -/
def serverRoundTrip (s : ServerResponse) : Option (Except CodecError ServerResponse) :=
  s.intoBytes.map ServerResponse.tryFromBytes

/-- Embeds `BroadcastCmd` from src/cobid.rs. -/
inductive BroadcastCmd where
  | Nmt
  | Sync
  deriving DecidableEq, Repr

/-- Embeds `NodeCmd` from src/cobid.rs. -/
inductive NodeCmd where
  | Emergency
  | Time
  | Pdo1Tx
  | Pdo1Rx
  | Pdo2Tx
  | Pdo2Rx
  | Pdo3Tx
  | Pdo3Rx
  | Pdo4Tx
  | Pdo4Rx
  | SdoResp
  | SdoReq
  | Heartbeat
  | Unused
  deriving DecidableEq, Repr

/-- Embeds `FunCode` from src/cobid.rs. -/
inductive FunCode where
  | Broadcast (cmd : BroadcastCmd)
  | Node (cmd : NodeCmd) (node : Nat)
  deriving DecidableEq, Repr

/-- The field `cob_id & FUN_MASK` with `FUN_MASK = 0x780` (bits 7..10),
rendered `cob_id / 128 % 16 * 128`. -/
def funPart (cobId : Nat) : Nat := cobId / 128 % 16 * 128

/-- Embeds `decode_broadcast` from src/cobid.rs: `(0x000, _)` is NMT and
`(0x080, 0)` is SYNC; `cob_id & NODE_MASK` is `cob_id % 128`. -/
def decode_broadcast (cobId : Nat) : Option BroadcastCmd :=
  let fn := funPart cobId
  let node := cobId % 128
  if fn = 0x000 then some .Nmt
  else if fn = 0x080 ∧ node = 0x00 then some .Sync
  else none

/-- Embeds `decode_node_code` from src/cobid.rs. -/
def decode_node_code (funcPart : Nat) : NodeCmd :=
  if funcPart = 0x080 then .Emergency
  else if funcPart = 0x100 then .Time
  else if funcPart = 0x180 then .Pdo1Tx
  else if funcPart = 0x200 then .Pdo1Rx
  else if funcPart = 0x280 then .Pdo2Tx
  else if funcPart = 0x300 then .Pdo2Rx
  else if funcPart = 0x380 then .Pdo3Tx
  else if funcPart = 0x400 then .Pdo3Rx
  else if funcPart = 0x480 then .Pdo4Tx
  else if funcPart = 0x500 then .Pdo4Rx
  else if funcPart = 0x580 then .SdoResp
  else if funcPart = 0x600 then .SdoReq
  else if funcPart = 0x700 then .Heartbeat
  else .Unused

/-- Embeds `impl From<u32> for FunCode`: broadcast decoding first, otherwise a
per-node command from the function-code field and `node = cob_id & 0x7F`. -/
def FunCode.fromU32 (cobId : Nat) : FunCode :=
  match decode_broadcast cobId with
  | some broadcast => .Broadcast broadcast
  | none => .Node (decode_node_code (funPart cobId)) (cobId % 128)

/-- Embeds `encode_node_code` from src/cobid.rs. -/
def encode_node_code : NodeCmd → Nat
  | .Emergency => 0x080
  | .Time => 0x100
  | .Pdo1Tx => 0x180
  | .Pdo1Rx => 0x200
  | .Pdo2Tx => 0x280
  | .Pdo2Rx => 0x300
  | .Pdo3Tx => 0x380
  | .Pdo3Rx => 0x400
  | .Pdo4Tx => 0x480
  | .Pdo4Rx => 0x500
  | .SdoResp => 0x580
  | .SdoReq => 0x600
  | .Heartbeat => 0x700
  | .Unused => 0x000

/-- Embeds `impl From<FunCode> for u32`: total; `func_part | (node & NODE_MASK)` is
`encode_node_code cmd + node % 128` (disjoint bit ranges). -/
def FunCode.intoU32 : FunCode → Nat
  | .Broadcast .Nmt => 0x000
  | .Broadcast .Sync => 0x080
  | .Node cmd node => encode_node_code cmd + node % 128

/-- Machine errors from src/sdo/machines.rs `Error`. -/
inductive MachineError where
  | StateResponseMismatch
  | IndexMismatch (got expected : Index)
  | TransferAborted (code : AbortCode)
  | ToggleMismatch
  | BufferOverflow
  deriving DecidableEq, Repr

/-- Embeds `ClientState` from src/sdo/machines.rs. -/
inductive ClientState where
  | Idle
  | InitUpload
  | SingleSegmentUploaded
  | UploadingMultiples (t : ToggleBit)
  | MultiplesUploaded
  | InitSingleDownload (len : Nat)
  | InitMultipleDownload (len : Nat)
  | DownloadingSegments (t : ToggleBit) (len : Nat)
  | DownloadCompleted
  | ErrorState (e : MachineError)
  deriving DecidableEq, Repr

/-- Embeds `ClientMachine` context from src/sdo/machines.rs; the `[u8; 1024]` buffer
is a list of byte values. -/
structure ClientMachine (RR RW : Type) where
  index : Index
  state : ClientState
  data_index : Nat
  read_responder : Option RR
  write_responder : Option RW
  data : List Nat
  deriving DecidableEq, Repr

/-- Embeds `ClientResult` from src/sdo/machines.rs. -/
inductive ClientResult (RR RW : Type) where
  | UploadCompleted (ix : Index) (data : List Nat) (n : Nat) (r : Option RR)
  | DownloadCompleted (r : Option RW)
  | TransferAborted (code : AbortCode)
  deriving DecidableEq, Repr

/-- Embeds `ClientOutput` from src/sdo/machines.rs. -/
inductive ClientOutput (RR RW : Type) where
  | Output (req : ClientRequest)
  | Done (res : ClientResult RR RW)
  | Error (e : MachineError)
  | Ready
  deriving DecidableEq, Repr

/-- Embeds `impl Default for ClientMachine`. -/
def ClientMachine.default (RR RW : Type) : ClientMachine RR RW :=
  { read_responder := none
    write_responder := none
    index := Index.new 0 0
    state := .Idle
    data_index := 0
    data := List.replicate 1024 0 }

/-- Models `dst[a..a+src.length].copy_from_slice(src)`: replace that range of `dst`. -/
def listSplice (dst : List Nat) (a : Nat) (src : List Nat) : List Nat :=
  dst.take a ++ src ++ dst.drop (a + src.length)

/-- The slice `l[a..b]`. -/
def listSlice (l : List Nat) (a b : Nat) : List Nat := (l.drop a).take (b - a)

/-- First four bytes of a list as a `[u8; 4]`. -/
def b4OfList (l : List Nat) : B4 := ⟨l.getD 0 0, l.getD 1 0, l.getD 2 0, l.getD 3 0⟩

/-- First seven bytes of a list as a `[u8; 7]`. -/
def b7OfList (l : List Nat) : B7 :=
  ⟨l.getD 0 0, l.getD 1 0, l.getD 2 0, l.getD 3 0, l.getD 4 0, l.getD 5 0, l.getD 6 0⟩

variable {RR RW : Type}

/-- Embeds `ClientMachine::read`. -/
def ClientMachine.read (m : ClientMachine RR RW) (index : Index) (r : RR) :
    ClientMachine RR RW :=
  { m with index := index, read_responder := some r, state := .InitUpload }

/-- Embeds `ClientMachine::write`: the caller-provided serializer `into_buf` maps the
current buffer to the updated buffer and the number of bytes written. -/
def ClientMachine.write (m : ClientMachine RR RW) (index : Index)
    (into_buf : List Nat → List Nat × Nat) (r : RW) : ClientMachine RR RW :=
  let p := into_buf m.data
  { m with
    index := index
    data := p.1
    write_responder := some r
    state := if p.2 ≤ 4 then .InitSingleDownload p.2 else .InitMultipleDownload p.2 }

/-- Embeds `MachineTrans::initial`. -/
def ClientMachine.initial (m : ClientMachine RR RW) : ClientMachine RR RW :=
  { m with state := .Idle, data_index := 0 }

/-- Embeds `MachineTrans::transit`; `none` models a Rust panic (a `copy_from_slice`
length mismatch or out-of-range slicing). -/
def ClientMachine.transit (m : ClientMachine RR RW) (response : ServerResponse) :
    Option (ClientMachine RR RW) :=
  match m.state, response with
  | .InitUpload, .UploadSingleSegment res_index len d =>
      if res_index ≠ m.index then
        some { m with state := .ErrorState (.IndexMismatch res_index m.index) }
      else if 4 ≤ m.data.length then
        some { m with
          data := listSplice m.data 0 [d.b0, d.b1, d.b2, d.b3]
          data_index := len
          state := .SingleSegmentUploaded }
      else none
  | .InitUpload, .UploadInitMultiples res_index _size =>
      if res_index ≠ m.index then
        some { m with state := .ErrorState (.IndexMismatch res_index m.index) }
      else
        some { m with data_index := 0, state := .UploadingMultiples ⟨false⟩ }
  | .UploadingMultiples toggle, .UploadMultiples res_toggle isEnd len d =>
      if res_toggle ≠ toggle then
        some { m with state := .ErrorState .ToggleMismatch }
      else
        let idx := m.data_index
        if idx + len > m.data.length then
          some { m with state := .ErrorState .BufferOverflow }
        else if len ≤ 7 then
          some { m with
            data := listSplice m.data idx
              (List.take len [d.b0, d.b1, d.b2, d.b3, d.b4, d.b5, d.b6])
            data_index := idx + len
            state := if isEnd then .MultiplesUploaded
                     else .UploadingMultiples toggle.not }
        else none
  | .InitSingleDownload _len, .DownloadInitAck res_index =>
      if res_index ≠ m.index then
        some { m with state := .ErrorState (.IndexMismatch res_index m.index) }
      else some { m with state := .DownloadCompleted }
  | .InitMultipleDownload len, .DownloadInitAck res_index =>
      if res_index ≠ m.index then
        some { m with state := .ErrorState (.IndexMismatch res_index m.index) }
      else some { m with state := .DownloadingSegments ⟨false⟩ len }
  | .DownloadingSegments toggle n, .DownloadSegmentAck res_toggle =>
      if res_toggle ≠ toggle then
        some { m with state := .ErrorState .ToggleMismatch }
      else if m.data_index + 7 < n then
        some { m with
          state := .DownloadingSegments toggle.not n
          data_index := m.data_index + 7 }
      else some { m with state := .DownloadCompleted }
  | _, _ => some { m with state := .ErrorState .StateResponseMismatch }

/-- Embeds `MachineTrans::observe`: the observation together with the machine after
observing (the `Done` arms move the responder out); `none` models a panic. -/
def ClientMachine.observe (m : ClientMachine RR RW) :
    Option (ClientOutput RR RW × ClientMachine RR RW) :=
  match m.state with
  | .Idle => some (.Ready, m)
  | .InitUpload => some (.Output (.InitUpload m.index), m)
  | .SingleSegmentUploaded =>
      some (.Done (.UploadCompleted m.index m.data m.data_index m.read_responder),
        { m with read_responder := none })
  | .UploadingMultiples toggle => some (.Output (.UploadSegment toggle), m)
  | .MultiplesUploaded =>
      some (.Done (.UploadCompleted m.index m.data m.data_index m.read_responder),
        { m with read_responder := none })
  | .InitSingleDownload len =>
      if len ≤ m.data.length ∧ (listSlice m.data 0 len).length = 4 then
        some (.Output (.InitSingleSegmentDownload m.index (len % 256)
          (b4OfList (listSlice m.data 0 len))), m)
      else none
  | .InitMultipleDownload len =>
      some (.Output (.InitMultipleDownload m.index (len % 4294967296)), m)
  | .DownloadingSegments toggle n =>
      let ix0 := m.data_index
      let ix1 := min (ix0 + 7) n
      let isEnd := decide (m.data_index + 7 ≥ n)
      if ix0 ≤ ix1 ∧ ix1 ≤ m.data.length ∧ (listSlice m.data ix0 ix1).length = 7 then
        some (.Output (.DownloadSegment toggle isEnd 7
          (b7OfList (listSlice m.data ix0 ix1))), m)
      else none
  | .DownloadCompleted =>
      some (.Done (.DownloadCompleted m.write_responder),
        { m with write_responder := none })
  | .ErrorState err => some (.Error err, m)

/-- Length bound carried by the download-arming states: write's serializer
returns at most the buffer capacity (the hypothesis of claim C7). -/
def stateBound : ClientState → Prop
  | .DownloadingSegments _ n => n ≤ 1024
  | .InitMultipleDownload n => n ≤ 1024
  | _ => True

/-- The machine invariant of claim C7: the cursor never exceeds the buffer
capacity, the buffer keeps its 1024-byte size, and armed download lengths are
within capacity. -/
def inv (m : ClientMachine RR RW) : Prop :=
  m.data_index ≤ 1024 ∧ m.data.length = 1024 ∧ stateBound m.state

/-- The u8 range of the length fields of a `ServerResponse` fed to `transit`. -/
def ServerResponse.wfBytes : ServerResponse → Prop
  | .UploadSingleSegment _ len _ => len < 256
  | .UploadMultiples _ _ len _ => len < 256
  | _ => True

/-- A test serializer in the sense of the `IntoBuf` trait from
src/dictionary.rs: writes the ten bytes 1..10 at the front of the buffer and
returns length 10. -/
def ser10 : List Nat → List Nat × Nat :=
  fun buf => (listSplice buf 0 [1, 2, 3, 4, 5, 6, 7, 8, 9, 10], 10)

/-- A test serializer writing one byte. -/
def ser1 : List Nat → List Nat × Nat := fun buf => (listSplice buf 0 [0xAB], 1)

/-- A test serializer writing four bytes (the little-endian `u32` instance of
`IntoBuf` at value 0x01020304). -/
def ser4 : List Nat → List Nat × Nat := fun buf => (listSplice buf 0 [4, 3, 2, 1], 4)

/-- The machine of the 10-byte segmented-download scenario after `write` and
`DownloadInitAck`. -/
def mAfterAck : ClientMachine Unit Unit :=
  { index := Index.new 0x1000 1
    state := .DownloadingSegments ⟨false⟩ 10
    data_index := 0
    read_responder := none
    write_responder := some ()
    data := [1, 2, 3, 4, 5, 6, 7, 8, 9, 10] ++ List.replicate 1014 0 }

/-- The same scenario after the first `DownloadSegmentAck(false)`. -/
def mAfterSeg1 : ClientMachine Unit Unit :=
  { mAfterAck with
    state := .DownloadingSegments ⟨true⟩ 10
    data_index := 7 }

/-- A machine in a segmented upload with the cursor near the end of the
buffer, used to exercise the overflow fault. -/
def mOv : ClientMachine Unit Unit :=
  { ClientMachine.default Unit Unit with
    state := .UploadingMultiples ⟨false⟩
    data_index := 1020 }

/-- The overflow machine parked in the buffer-overflow error state. -/
def mOvErr : ClientMachine Unit Unit :=
  { mOv with state := .ErrorState .BufferOverflow }

/-- The overflow machine parked in the toggle-mismatch error state. -/
def mOvErrToggle : ClientMachine Unit Unit :=
  { mOv with state := .ErrorState .ToggleMismatch }

/-- A machine in the output-bearing state `InitUpload`. -/
def mObsOut : ClientMachine Unit Unit :=
  { ClientMachine.default Unit Unit with state := .InitUpload }

/-- A machine in the `Done` state `DownloadCompleted` holding a write
responder. -/
def mDone : ClientMachine Unit Unit :=
  { ClientMachine.default Unit Unit with
    state := .DownloadCompleted
    write_responder := some () }

/-- A machine whose cursor holds the stale value 3 from a previous transfer. -/
def mCursor3 : ClientMachine Unit Unit :=
  { ClientMachine.default Unit Unit with data_index := 3 }

end Funcan

/-- C4: decoding a TransferType from a byte with e/s bits `0b10` does NOT fail:
`TransferType::try_from(0x42)` returns `Ok(ExpeditedWithSize(0))`, refuting the
claim that it fails with `Error::UnsupportedTransferType`. -/
theorem c4_counterexample :
    Funcan.TransferType.tryFromU8 0x42 = .ok (.ExpeditedWithSize 0) ∧
    ∀ e, Funcan.TransferType.tryFromU8 0x42 ≠ .error e := by
  constructor
  · rfl
  · intro e h
    simp [Funcan.TransferType.tryFromU8] at h

/-- C4 (amended): for every byte with e/s bit pair `0b10` (`x & 0x03 == 0x02`),
`TransferType::try_from` succeeds with `ExpeditedWithSize(0)`; more generally
the decoder never returns an error. -/
theorem c4_transfer_type_es10_accepted (x : Nat) (h : x % 4 = 2) :
    Funcan.TransferType.tryFromU8 x = .ok (.ExpeditedWithSize 0) ∧
    ∀ e, Funcan.TransferType.tryFromU8 x ≠ .error e := by
  constructor
  · unfold Funcan.TransferType.tryFromU8
    rw [h]
  · intro e
    unfold Funcan.TransferType.tryFromU8
    have h4 : x % 4 < 4 := Nat.mod_lt _ (by norm_num)
    interval_cases hx : x % 4 <;> simp_all

/-- C4 witness: the amended theorem applied at the concrete byte 0x46. -/
theorem c4_transfer_type_es10_accepted_witness :
    Funcan.TransferType.tryFromU8 0x46 = .ok (.ExpeditedWithSize 0) ∧
    ∀ e, Funcan.TransferType.tryFromU8 0x46 ≠ .error e :=
  c4_transfer_type_es10_accepted 0x46 (by norm_num)

namespace Funcan

/-- COB-IDs of the form `base + node` with a 7-bit node and a function-code
base that is neither `0x000` nor a SYNC collision decode to a node command. -/
lemma fromU32_base_add_node (B node : Nat) (hmod : B % 128 = 0) (hle : B ≤ 0x780)
    (hn : node < 128) (hB0 : B ≠ 0) (hB080 : B = 0x080 → node ≠ 0) :
    FunCode.fromU32 (B + node) = .Node (decode_node_code B) node := by
  have h1 : funPart (B + node) = B := by unfold funPart; omega
  have h2 : (B + node) % 128 = node := by omega
  have hdb : decode_broadcast (B + node) = none := by
    have h3 : ¬(B = 0x080 ∧ node = 0x00) := by
      rintro ⟨ha, hb⟩
      exact hB080 ha hb
    unfold decode_broadcast
    simp only [h1, h2]
    rw [if_neg hB0, if_neg h3]
  unfold FunCode.fromU32
  rw [hdb, h1, h2]

end Funcan

/-- C5: the round trip fails not only at `NodeCmd::Unused`:
`FunCode::Node(Emergency, 0)` encodes to `0x080` and decodes back as
`Broadcast(Sync)`, so the claimed "sole exception" is refuted at the
concrete input `Node(Emergency, 0)`. -/
theorem c5_counterexample :
    Funcan.FunCode.fromU32 (Funcan.FunCode.intoU32 (.Node .Emergency 0)) =
      .Broadcast .Sync ∧
    Funcan.FunCode.fromU32 (Funcan.FunCode.intoU32 (.Node .Emergency 0)) ≠
      .Node .Emergency 0 := by
  constructor <;> decide

/-- C5 (amended): for node IDs below 128 the COB-ID round trip
`FunCode::from(u32::from(fc)) == fc` holds for every broadcast code and every
node command except two collisions: `NodeCmd::Unused` encodes to `0x000` and
decodes as broadcast NMT, and `Node(Emergency, 0)` encodes to `0x080` and
decodes as broadcast SYNC. -/
theorem c5_cobid_roundtrip (cmd : Funcan.NodeCmd) (node : Nat) (bc : Funcan.BroadcastCmd)
    (hnode : node < 128) (hcmd : cmd ≠ .Unused)
    (hex : ¬(cmd = .Emergency ∧ node = 0)) :
    Funcan.FunCode.fromU32 (Funcan.FunCode.intoU32 (.Node cmd node)) = .Node cmd node ∧
    Funcan.FunCode.fromU32 (Funcan.FunCode.intoU32 (.Broadcast bc)) = .Broadcast bc ∧
    Funcan.FunCode.fromU32 (Funcan.FunCode.intoU32 (.Node .Unused node)) =
      .Broadcast .Nmt := by
  have hmask : node % 128 = node := Nat.mod_eq_of_lt hnode
  refine ⟨?_, ?_, ?_⟩
  · show Funcan.FunCode.fromU32 (Funcan.encode_node_code cmd + node % 128) = _
    rw [hmask]
    cases cmd
    case Unused => exact absurd rfl hcmd
    case Emergency =>
      have hn0 : node ≠ 0 := fun h => hex ⟨rfl, h⟩
      show Funcan.FunCode.fromU32 (0x080 + node) = _
      rw [Funcan.fromU32_base_add_node 0x080 node (by norm_num) (by norm_num) hnode
        (by norm_num) (fun _ => hn0)]
      rfl
    all_goals
      rw [Funcan.fromU32_base_add_node _ node (by decide) (by decide) hnode (by decide)
        (by intro hB; exact absurd hB (by decide))]
    all_goals rfl
  · cases bc <;> decide
  · show Funcan.FunCode.fromU32 (0x000 + node % 128) = _
    rw [Nat.zero_add, hmask]
    have h1 : Funcan.funPart node = 0 := by unfold Funcan.funPart; omega
    unfold Funcan.FunCode.fromU32 Funcan.decode_broadcast
    simp [h1]

/-- C5 witness: the amended round trip at `(SdoResp, node 5)` with broadcast
SYNC. -/
theorem c5_cobid_roundtrip_witness :
    Funcan.FunCode.fromU32 (Funcan.FunCode.intoU32 (.Node .SdoResp 5)) =
      .Node .SdoResp 5 ∧
    Funcan.FunCode.fromU32 (Funcan.FunCode.intoU32 (.Broadcast .Sync)) =
      .Broadcast .Sync ∧
    Funcan.FunCode.fromU32 (Funcan.FunCode.intoU32 (.Node .Unused 5)) =
      .Broadcast .Nmt :=
  c5_cobid_roundtrip .SdoResp 5 .Sync (by norm_num) (by simp) (by simp)

/-- C6: encoding a node ID of 128 does not fail: `u32::from` is an infallible
total function that masks the node to 7 bits, so `Node(Heartbeat, 128)`
encodes to `0x700`, the same COB-ID as `Node(Heartbeat, 0)` — refuting the
claim that encoding fails exactly for node IDs ≥ 128. -/
theorem c6_counterexample :
    Funcan.FunCode.intoU32 (.Node .Heartbeat 128) = 0x700 ∧
    Funcan.FunCode.intoU32 (.Node .Heartbeat 128) =
      Funcan.FunCode.intoU32 (.Node .Heartbeat 0) := by
  constructor <;> decide

namespace Funcan

/-- Writing a well-formed `Index` to its three wire bytes and reading it back
is the identity. -/
lemma index_roundtrip (ix : Index) (h : ix.wf) :
    Index.read_from_slice ix.write_to_slice.1 ix.write_to_slice.2.1 ix.write_to_slice.2.2
      = ix := by
  obtain ⟨i, s⟩ := ix
  obtain ⟨h1, h2⟩ := h
  replace h1 : i < 65536 := h1
  unfold Index.read_from_slice Index.write_to_slice
  simp only [Index.mk.injEq]
  exact ⟨by omega, trivial⟩

/-- Abort codes survive the u32 little-endian wire round trip. -/
lemma abort_roundtrip (c : AbortCode) :
    AbortCode.fromU32 (u32FromLeBytes (c.intoU32 % 256) (c.intoU32 / 256 % 256)
      (c.intoU32 / 65536 % 256) (c.intoU32 / 16777216 % 256)) = c := by
  cases c <;> rfl

end Funcan

/-- C3: the codec round trip fails on the claim's full validity range: the
expedited upload size `n = 0` encodes (via `len & 0x3`) to the same byte as
`n = 4` and decodes back as `4`, refuting `try_from(into(x)) == Ok(x)` at
`UploadSingleSegment((0x1000,1), 0, [1,2,3,4])`. -/
theorem c3_counterexample :
    Funcan.serverRoundTrip
        (.UploadSingleSegment (Funcan.Index.new 0x1000 1) 0 ⟨1, 2, 3, 4⟩) =
      some (.ok (.UploadSingleSegment (Funcan.Index.new 0x1000 1) 4 ⟨1, 2, 3, 4⟩)) ∧
    Funcan.serverRoundTrip
        (.UploadSingleSegment (Funcan.Index.new 0x1000 1) 0 ⟨1, 2, 3, 4⟩) ≠
      some (.ok (.UploadSingleSegment (Funcan.Index.new 0x1000 1) 0 ⟨1, 2, 3, 4⟩)) := by
  constructor <;> decide

/-- C3 (amended): decoding the 8-byte encoding returns the original value for
every valid `ClientRequest` (`InitSingleSegmentDownload` length in `1..=4`,
`DownloadSegment` length in `0..=7`) and every valid `ServerResponse` with
`UploadSingleSegment` size in `1..=4` (not `0..=4` as claimed: `n = 0` is the
counterexample) and `UploadMultiples` length in `0..=7`. -/
theorem c3_codec_roundtrip (r : Funcan.ClientRequest) (s : Funcan.ServerResponse)
    (hr : r.valid) (hs : s.valid) :
    Funcan.clientRoundTrip r = some (.ok r) ∧
    Funcan.serverRoundTrip s = some (.ok s) := by
  constructor
  · cases r with
    | InitUpload ix =>
        obtain ⟨i, sub⟩ := ix
        obtain ⟨h1, h2⟩ := hr
        replace h1 : i < 65536 := h1
        simp [Funcan.clientRoundTrip, Funcan.ClientRequest.intoBytes,
          Funcan.ClientRequest.tryFromBytes, Funcan.ClientCommandSpecifier.tryFromU8,
          Funcan.ClientCommandSpecifier.intoU8, Funcan.Index.write_to_slice,
          Funcan.Index.read_from_slice]
        omega
    | UploadSegment t =>
        obtain ⟨tv⟩ := t
        cases tv <;> rfl
    | InitSingleSegmentDownload ix len d =>
        obtain ⟨i, sub⟩ := ix
        obtain ⟨⟨h1, h2⟩, hl1, hl4, hd⟩ := hr
        replace h1 : i < 65536 := h1
        interval_cases len <;>
          (simp [Funcan.clientRoundTrip, Funcan.ClientRequest.intoBytes,
            Funcan.ClientRequest.tryFromBytes, Funcan.ClientCommandSpecifier.tryFromU8,
            Funcan.ClientCommandSpecifier.intoU8, Funcan.Index.write_to_slice,
            Funcan.Index.read_from_slice]
           omega)
    | InitMultipleDownload ix len =>
        obtain ⟨i, sub⟩ := ix
        obtain ⟨⟨h1, h2⟩, hlen⟩ := hr
        replace h1 : i < 65536 := h1
        replace hlen : len < 4294967296 := hlen
        by_cases h0 : len = 0
        · subst h0
          simp [Funcan.clientRoundTrip, Funcan.ClientRequest.intoBytes,
            Funcan.ClientRequest.tryFromBytes, Funcan.ClientCommandSpecifier.tryFromU8,
            Funcan.ClientCommandSpecifier.intoU8, Funcan.Index.write_to_slice,
            Funcan.Index.read_from_slice, Funcan.u32ToLeBytes, Funcan.u32FromLeBytes]
          omega
        · have hpos : 0 < len := Nat.pos_of_ne_zero h0
          simp [Funcan.clientRoundTrip, Funcan.ClientRequest.intoBytes,
            Funcan.ClientRequest.tryFromBytes, Funcan.ClientCommandSpecifier.tryFromU8,
            Funcan.ClientCommandSpecifier.intoU8, Funcan.Index.write_to_slice,
            Funcan.Index.read_from_slice, Funcan.u32ToLeBytes, Funcan.u32FromLeBytes, hpos]
          omega
    | DownloadSegment t c n d =>
        obtain ⟨tv⟩ := t
        obtain ⟨hn, hd⟩ := hr
        interval_cases n <;> cases tv <;> cases c <;>
          simp [Funcan.clientRoundTrip, Funcan.ClientRequest.intoBytes,
            Funcan.ClientRequest.tryFromBytes, Funcan.ClientCommandSpecifier.tryFromU8,
            Funcan.ClientCommandSpecifier.intoU8, Funcan.ToggleBit.intoU8,
            Funcan.ToggleBit.fromU8]
    | AbortTransfer ix code =>
        obtain ⟨i, sub⟩ := ix
        obtain ⟨h1, h2⟩ := hr
        replace h1 : i < 65536 := h1
        simp [Funcan.clientRoundTrip, Funcan.ClientRequest.intoBytes,
          Funcan.ClientRequest.tryFromBytes, Funcan.ClientCommandSpecifier.tryFromU8,
          Funcan.ClientCommandSpecifier.intoU8, Funcan.Index.write_to_slice,
          Funcan.Index.read_from_slice, Funcan.u32ToLeBytes]
        exact ⟨by omega, Funcan.abort_roundtrip code⟩
  · cases s with
    | UploadSingleSegment ix n d =>
        obtain ⟨i, sub⟩ := ix
        obtain ⟨⟨h1, h2⟩, hl1, hl4, hd⟩ := hs
        replace h1 : i < 65536 := h1
        interval_cases n <;>
          (simp [Funcan.serverRoundTrip, Funcan.ServerResponse.intoBytes,
            Funcan.ServerResponse.tryFromBytes, Funcan.ServerCommandSpecifier.tryFromU8,
            Funcan.ServerCommandSpecifier.intoU8, Funcan.TransferType.intoU8,
            Funcan.TransferType.tryFromU8, Funcan.Index.write_to_slice,
            Funcan.Index.read_from_slice]
           omega)
    | UploadInitMultiples ix len =>
        obtain ⟨i, sub⟩ := ix
        obtain ⟨⟨h1, h2⟩, hlen⟩ := hs
        replace h1 : i < 65536 := h1
        replace hlen : len < 4294967296 := hlen
        by_cases h0 : len = 0
        · subst h0
          simp [Funcan.serverRoundTrip, Funcan.ServerResponse.intoBytes,
            Funcan.ServerResponse.tryFromBytes, Funcan.ServerCommandSpecifier.tryFromU8,
            Funcan.ServerCommandSpecifier.intoU8, Funcan.TransferType.intoU8,
            Funcan.TransferType.tryFromU8, Funcan.Index.write_to_slice,
            Funcan.Index.read_from_slice, Funcan.u32ToLeBytes, Funcan.u32FromLeBytes]
          omega
        · simp [Funcan.serverRoundTrip, Funcan.ServerResponse.intoBytes,
            Funcan.ServerResponse.tryFromBytes, Funcan.ServerCommandSpecifier.tryFromU8,
            Funcan.ServerCommandSpecifier.intoU8, Funcan.TransferType.intoU8,
            Funcan.TransferType.tryFromU8, Funcan.Index.write_to_slice,
            Funcan.Index.read_from_slice, Funcan.u32ToLeBytes, Funcan.u32FromLeBytes, h0]
          omega
    | UploadMultiples t isEnd len d =>
        obtain ⟨tv⟩ := t
        obtain ⟨hn, hd⟩ := hs
        interval_cases len <;> cases tv <;> cases isEnd <;>
          simp [Funcan.serverRoundTrip, Funcan.ServerResponse.intoBytes,
            Funcan.ServerResponse.tryFromBytes, Funcan.ServerCommandSpecifier.tryFromU8,
            Funcan.ServerCommandSpecifier.intoU8, Funcan.ToggleBit.intoU8,
            Funcan.ToggleBit.fromU8]
    | DownloadInitAck ix =>
        obtain ⟨i, sub⟩ := ix
        obtain ⟨h1, h2⟩ := hs
        replace h1 : i < 65536 := h1
        simp [Funcan.serverRoundTrip, Funcan.ServerResponse.intoBytes,
          Funcan.ServerResponse.tryFromBytes, Funcan.ServerCommandSpecifier.tryFromU8,
          Funcan.ServerCommandSpecifier.intoU8, Funcan.Index.write_to_slice,
          Funcan.Index.read_from_slice]
        omega
    | DownloadSegmentAck t =>
        obtain ⟨tv⟩ := t
        cases tv <;> rfl

/-- C3 witness: the amended round trip at the repository's own test vectors
`AbortTransfer((0x1000,1), SDOProtocolTimedOut)` and
`UploadSingleSegment((0x1000,1), 2, [1,2,3,4])`. -/
theorem c3_codec_roundtrip_witness :
    Funcan.clientRoundTrip
        (.AbortTransfer (Funcan.Index.new 0x1000 1) .SDOProtocolTimedOut) =
      some (.ok (.AbortTransfer (Funcan.Index.new 0x1000 1) .SDOProtocolTimedOut)) ∧
    Funcan.serverRoundTrip
        (.UploadSingleSegment (Funcan.Index.new 0x1000 1) 2 ⟨1, 2, 3, 4⟩) =
      some (.ok (.UploadSingleSegment (Funcan.Index.new 0x1000 1) 2 ⟨1, 2, 3, 4⟩)) :=
  c3_codec_roundtrip _ _
    (by exact ⟨by decide, by decide⟩)
    (by exact ⟨⟨by decide, by decide⟩, by decide, by decide,
      by decide, by decide, by decide, by decide⟩)

/-- C6 (amended): the COB-ID router is total in both directions: encoding
never fails — a node ID is masked to 7 bits (`node & 0x7F`), so any node ≥ 128
encodes like `node % 128` — and decoding of an arbitrary COB-ID always
produces a `FunCode`. -/
theorem c6_router_total (cmd : Funcan.NodeCmd) (node c : Nat) :
    Funcan.FunCode.intoU32 (.Node cmd node) =
      Funcan.FunCode.intoU32 (.Node cmd (node % 128)) ∧
    ∃ r, Funcan.FunCode.fromU32 c = r := by
  constructor
  · show Funcan.encode_node_code cmd + node % 128 =
      Funcan.encode_node_code cmd + node % 128 % 128
    omega
  · exact ⟨_, rfl⟩

namespace Funcan

/-- Splicing inside the bounds of a list preserves its length. -/
lemma listSplice_length (dst src : List Nat) (a : Nat)
    (h : a + src.length ≤ dst.length) :
    (listSplice dst a src).length = dst.length := by
  unfold listSplice
  simp only [List.length_append, List.length_take, List.length_drop]
  omega

/-- Length of a list slice. -/
lemma listSlice_length (l : List Nat) (a b : Nat) :
    (listSlice l a b).length = min (b - a) (l.length - a) := by
  simp [listSlice]

variable {RR RW : Type}

/-- The `read` operation preserves the machine invariant. -/
lemma inv_read (m : ClientMachine RR RW) (ix : Index) (r : RR) (hm : inv m) :
    inv (m.read ix r) :=
  ⟨hm.1, hm.2.1, trivial⟩

/-- The `initial` operation preserves the machine invariant. -/
lemma inv_initial (m : ClientMachine RR RW) (hm : inv m) : inv m.initial :=
  ⟨Nat.zero_le _, hm.2.1, trivial⟩

/-- The `write` operation preserves the machine invariant when the serializer keeps the
buffer size and returns a length within capacity. -/
lemma inv_write (m : ClientMachine RR RW) (ix : Index)
    (into_buf : List Nat → List Nat × Nat) (w : RW)
    (hl : (into_buf m.data).1.length = m.data.length)
    (hn : (into_buf m.data).2 ≤ 1024) (hm : inv m) :
    inv (m.write ix into_buf w) := by
  obtain ⟨h1, h2, h3⟩ := hm
  refine ⟨h1, hl.trans h2, ?_⟩
  show stateBound (if (into_buf m.data).2 ≤ 4 then
      ClientState.InitSingleDownload (into_buf m.data).2
    else ClientState.InitMultipleDownload (into_buf m.data).2)
  split
  · trivial
  · exact hn

/-- The `observe` operation preserves the machine invariant. -/
lemma inv_observe (m mo : ClientMachine RR RW) (o : ClientOutput RR RW)
    (hm : inv m) (ho : m.observe = some (o, mo)) : inv mo := by
  obtain ⟨mi, mst, mdi, mrr, mwr, mdata⟩ := m
  obtain ⟨h1, h2, h3⟩ := hm
  replace h1 : mdi ≤ 1024 := h1
  replace h2 : mdata.length = 1024 := h2
  replace h3 : stateBound mst := h3
  cases mst <;>
    simp only [ClientMachine.observe] at ho <;>
    (try split_ifs at ho) <;>
    first
      | exact Option.noConfusion ho
      | (simp only [Option.some.injEq, Prod.mk.injEq] at ho
         obtain ⟨ho1, ho2⟩ := ho
         subst ho2
         exact ⟨h1, h2, h3⟩)

/-- The `transit` operation preserves the machine invariant for responses whose length
fields are in u8 range. -/
lemma inv_transit (m m' : ClientMachine RR RW) (resp : ServerResponse)
    (hm : inv m) (hw : resp.wfBytes) (ht : m.transit resp = some m') : inv m' := by
  obtain ⟨mi, mst, mdi, mrr, mwr, mdata⟩ := m
  obtain ⟨h1, h2, h3⟩ := hm
  replace h1 : mdi ≤ 1024 := h1
  replace h2 : mdata.length = 1024 := h2
  replace h3 : stateBound mst := h3
  cases mst <;> cases resp <;>
    simp only [stateBound] at h3 <;>
    simp only [ServerResponse.wfBytes] at hw <;>
    simp only [ClientMachine.transit] at ht <;>
    (try split_ifs at ht) <;>
    first
      | exact Option.noConfusion ht
      | (simp only [Option.some.injEq] at ht
         subst ht
         refine ⟨?_, ?_, ?_⟩ <;>
           first
             | omega
             | trivial
             | (simp only [stateBound]; first | trivial | omega | (split <;> trivial))
             | (show (listSplice _ _ _).length = 1024
                rw [listSplice_length] <;> (try simp) <;> omega))

end Funcan

/-- C1 (code bug): in the 10-byte segmented download, after `DownloadInitAck`
the machine emits the first segment (toggle false, last false, 7 bytes, and
length field 7), but after `DownloadSegmentAck(false)` — in state
`DownloadingSegments(true, 10)` with `data_index = 7` — `observe()` panics
(`data.copy_from_slice(&self.data[7..10])` copies 3 bytes into a `[0u8; 7]`)
instead of emitting the final zero-padded segment the claim describes. -/
theorem c1_download_final_segment_panics :
    (((Funcan.ClientMachine.default Unit Unit).write (Funcan.Index.new 0x1000 1)
        Funcan.ser10 ()).transit (.DownloadInitAck (Funcan.Index.new 0x1000 1)) =
      some Funcan.mAfterAck) ∧
    Funcan.mAfterAck.observe =
      some (.Output (.DownloadSegment ⟨false⟩ false 7 ⟨1, 2, 3, 4, 5, 6, 7⟩),
        Funcan.mAfterAck) ∧
    Funcan.mAfterAck.transit (.DownloadSegmentAck ⟨false⟩) = some Funcan.mAfterSeg1 ∧
    Funcan.mAfterSeg1.state = .DownloadingSegments ⟨true⟩ 10 ∧
    Funcan.mAfterSeg1.data_index = 7 ∧
    Funcan.mAfterSeg1.observe = none :=
  ⟨by decide, by decide, by decide, rfl, rfl, by decide⟩

/-- C2 (code bug): after arming a download whose serializer wrote `n` bytes
with `n < 4` the machine is in `InitSingleDownload(n)` as claimed, but
`observe()` then panics (`data.copy_from_slice(&self.data[0..n])` copies `n`
bytes into a `[0; 4]`) rather than emitting the request; only `n = 4`
succeeds. -/
theorem c2_init_single_download_observe_panics :
    ((Funcan.ClientMachine.default Unit Unit).write (Funcan.Index.new 0x2000 0)
        Funcan.ser1 ()).state = .InitSingleDownload 1 ∧
    ((Funcan.ClientMachine.default Unit Unit).write (Funcan.Index.new 0x2000 0)
        Funcan.ser1 ()).observe = none ∧
    ((Funcan.ClientMachine.default Unit Unit).write (Funcan.Index.new 0x2000 0)
        Funcan.ser4 ()).state = .InitSingleDownload 4 ∧
    ((Funcan.ClientMachine.default Unit Unit).write (Funcan.Index.new 0x2000 0)
        Funcan.ser4 ()).observe =
      some (.Output (.InitSingleSegmentDownload (Funcan.Index.new 0x2000 0) 4 ⟨4, 3, 2, 1⟩),
        (Funcan.ClientMachine.default Unit Unit).write (Funcan.Index.new 0x2000 0)
          Funcan.ser4 ()) :=
  ⟨rfl, by decide, rfl, by decide⟩

/-- C8: in `UploadingMultiples(t)`, an `UploadMultiples` response carrying the
wrong toggle parks the machine in `ErrorState(ToggleMismatch)` without
touching the buffer or the cursor, and `observe()` of that state returns
`Error(ToggleMismatch)` leaving the machine unchanged, so every subsequent
observation yields the same error. -/
theorem c8_toggle_mismatch_parks {RR RW : Type} (m : Funcan.ClientMachine RR RW)
    (t rt : Funcan.ToggleBit) (isEnd : Bool) (len : Nat) (d : Funcan.B7)
    (hst : m.state = .UploadingMultiples t) (hne : rt ≠ t) :
    m.transit (.UploadMultiples rt isEnd len d) =
      some { m with state := .ErrorState .ToggleMismatch } ∧
    Funcan.ClientMachine.observe { m with state := .ErrorState .ToggleMismatch } =
      some (.Error .ToggleMismatch, { m with state := .ErrorState .ToggleMismatch }) := by
  obtain ⟨mi, mst, mdi, mrr, mwr, mdata⟩ := m
  replace hst : mst = .UploadingMultiples t := hst
  subst hst
  constructor
  · simp only [Funcan.ClientMachine.transit]
    rw [if_pos hne]
  · rfl

/-- C8 witness: the toggle-mismatch fault at `UploadingMultiples(false)` fed
toggle `true`. -/
theorem c8_toggle_mismatch_parks_witness :
    Funcan.mOv.transit (.UploadMultiples ⟨true⟩ false 7 ⟨1, 2, 3, 4, 5, 6, 7⟩) =
      some Funcan.mOvErrToggle ∧
    Funcan.mOvErrToggle.observe = some (.Error .ToggleMismatch, Funcan.mOvErrToggle) :=
  c8_toggle_mismatch_parks Funcan.mOv ⟨false⟩ ⟨true⟩ false 7 ⟨1, 2, 3, 4, 5, 6, 7⟩
    rfl (by decide)

/-- C7: in `UploadingMultiples(t)`, an `UploadMultiples(t, _, len, _)` whose
length would run past the 1024-byte buffer parks the machine in
`ErrorState(BufferOverflow)` leaving buffer and cursor unchanged; and the
invariant `data_index ≤ 1024` (the first conjunct of `inv`) is preserved by
`transit`, `read`, `write` (under the hypothesis that the serializer returns
a length at most the capacity), `observe` and `initial`. -/
theorem c7_buffer_overflow_invariant {RR RW : Type}
    (m m' mo : Funcan.ClientMachine RR RW) (t : Funcan.ToggleBit) (isEnd : Bool)
    (len : Nat) (d : Funcan.B7) (resp : Funcan.ServerResponse) (ix : Funcan.Index)
    (r : RR) (w : RW) (into_buf : List Nat → List Nat × Nat)
    (o : Funcan.ClientOutput RR RW) :
    (m.state = .UploadingMultiples t → m.data_index + len > m.data.length →
      m.transit (.UploadMultiples t isEnd len d) =
        some { m with state := .ErrorState .BufferOverflow }) ∧
    (Funcan.inv m → resp.wfBytes → m.transit resp = some m' → Funcan.inv m') ∧
    (Funcan.inv m → Funcan.inv (m.read ix r)) ∧
    (Funcan.inv m → (into_buf m.data).1.length = m.data.length →
      (into_buf m.data).2 ≤ 1024 → Funcan.inv (m.write ix into_buf w)) ∧
    (Funcan.inv m → m.observe = some (o, mo) → Funcan.inv mo) ∧
    (Funcan.inv m → Funcan.inv m.initial) := by
  refine ⟨?_, fun a b c => Funcan.inv_transit m m' resp a b c,
    fun a => Funcan.inv_read m ix r a,
    fun a b c => Funcan.inv_write m ix into_buf w b c a,
    fun a b => Funcan.inv_observe m mo o a b,
    fun a => Funcan.inv_initial m a⟩
  intro hst hov
  obtain ⟨mi, mst, mdi, mrr, mwr, mdata⟩ := m
  replace hst : mst = .UploadingMultiples t := hst
  subst hst
  replace hov : mdi + len > mdata.length := hov
  simp only [Funcan.ClientMachine.transit]
  rw [if_neg (fun h => h rfl)]
  rw [if_pos hov]

/-- C7 witness: an overflowing segment at cursor 1020 parks in
`ErrorState(BufferOverflow)`, the resulting machine still satisfies the
invariant, and so does a freshly re-armed read. -/
theorem c7_buffer_overflow_invariant_witness :
    Funcan.mOv.transit (.UploadMultiples ⟨false⟩ false 7 ⟨1, 2, 3, 4, 5, 6, 7⟩) =
      some Funcan.mOvErr ∧
    Funcan.inv Funcan.mOvErr ∧
    Funcan.inv (Funcan.mOv.read (Funcan.Index.new 0x1000 1) ()) := by
  have h := c7_buffer_overflow_invariant Funcan.mOv Funcan.mOvErr Funcan.mOv
    ⟨false⟩ false 7 ⟨1, 2, 3, 4, 5, 6, 7⟩
    (.UploadMultiples ⟨false⟩ false 7 ⟨1, 2, 3, 4, 5, 6, 7⟩)
    (Funcan.Index.new 0x1000 1) () () Funcan.ser4 (.Output (.UploadSegment ⟨false⟩))
  have hov : Funcan.mOv.transit (.UploadMultiples ⟨false⟩ false 7 ⟨1, 2, 3, 4, 5, 6, 7⟩) =
      some Funcan.mOvErr := h.1 rfl (by decide)
  have hinv : Funcan.inv Funcan.mOv := ⟨by decide, by decide, trivial⟩
  exact ⟨hov, h.2.1 hinv (by norm_num [Funcan.ServerResponse.wfBytes]) hov, h.2.2.1 hinv⟩

/-- C9: observing an `Output`, `Error` or `Ready` state leaves the machine
unchanged (so repeated observations agree), while the first observation of a
`Done` state (`SingleSegmentUploaded`, `MultiplesUploaded`,
`DownloadCompleted`) carries `Some(responder)` and moves the responder out,
so every later observation in that state returns the same result with the
responder absent. -/
theorem c9_observe_responder_consumption {RR RW : Type}
    (m mo : Funcan.ClientMachine RR RW) (o : Funcan.ClientOutput RR RW)
    (r : RR) (w : RW) :
    (m.observe = some (o, mo) →
      ((∃ q, o = .Output q) ∨ (∃ e, o = .Error e) ∨ o = .Ready) → mo = m) ∧
    (m.state = .SingleSegmentUploaded → m.read_responder = some r →
      m.observe = some (.Done (.UploadCompleted m.index m.data m.data_index (some r)),
        { m with read_responder := none }) ∧
      Funcan.ClientMachine.observe { m with read_responder := none } =
        some (.Done (.UploadCompleted m.index m.data m.data_index (none : Option RR)),
          { m with read_responder := none })) ∧
    (m.state = .MultiplesUploaded → m.read_responder = some r →
      m.observe = some (.Done (.UploadCompleted m.index m.data m.data_index (some r)),
        { m with read_responder := none }) ∧
      Funcan.ClientMachine.observe { m with read_responder := none } =
        some (.Done (.UploadCompleted m.index m.data m.data_index (none : Option RR)),
          { m with read_responder := none })) ∧
    (m.state = .DownloadCompleted → m.write_responder = some w →
      m.observe = some (.Done (.DownloadCompleted (some w)),
        { m with write_responder := none }) ∧
      Funcan.ClientMachine.observe { m with write_responder := none } =
        some (.Done (.DownloadCompleted (none : Option RW)),
          { m with write_responder := none })) := by
  obtain ⟨mi, mst, mdi, mrr, mwr, mdata⟩ := m
  refine ⟨?_, ?_, ?_, ?_⟩
  · intro ho hcase
    cases mst <;>
      simp only [Funcan.ClientMachine.observe] at ho <;>
      (try split_ifs at ho) <;>
      first
        | exact Option.noConfusion ho
        | (simp only [Option.some.injEq, Prod.mk.injEq] at ho
           obtain ⟨ho1, ho2⟩ := ho
           subst ho1
           subst ho2
           first
             | rfl
             | (rcases hcase with ⟨q, hq⟩ | ⟨e, he⟩ | hre <;> simp_all))
  · intro hst hrr
    replace hst : mst = .SingleSegmentUploaded := hst
    subst hst
    replace hrr : mrr = some r := hrr
    subst hrr
    exact ⟨rfl, rfl⟩
  · intro hst hrr
    replace hst : mst = .MultiplesUploaded := hst
    subst hst
    replace hrr : mrr = some r := hrr
    subst hrr
    exact ⟨rfl, rfl⟩
  · intro hst hwr
    replace hst : mst = .DownloadCompleted := hst
    subst hst
    replace hwr : mwr = some w := hwr
    subst hwr
    exact ⟨rfl, rfl⟩

/-- C9 witness: idempotence of observing `InitUpload` on a concrete machine,
and the two-phase observation of a concrete `DownloadCompleted` machine. -/
theorem c9_observe_responder_consumption_witness :
    Funcan.mObsOut = Funcan.mObsOut ∧
    (Funcan.mDone.observe = some (.Done (.DownloadCompleted (some ())),
      ({ Funcan.mDone with write_responder := none } : Funcan.ClientMachine Unit Unit)) ∧
     Funcan.ClientMachine.observe
        ({ Funcan.mDone with write_responder := none } : Funcan.ClientMachine Unit Unit) =
      some (.Done (.DownloadCompleted (none : Option Unit)),
        ({ Funcan.mDone with write_responder := none } : Funcan.ClientMachine Unit Unit))) := by
  have h1 := c9_observe_responder_consumption Funcan.mObsOut Funcan.mObsOut
    (.Output (.InitUpload (Funcan.Index.new 0 0))) () ()
  have h2 := c9_observe_responder_consumption Funcan.mDone Funcan.mDone
    (.Ready) () ()
  exact ⟨h1.1 (by decide) (Or.inl ⟨_, rfl⟩), h2.2.2.2 rfl rfl⟩

/-- C10: `read` and `write` leave the `data_index` cursor untouched (and
`initial` resets it to 0), so arming a segmented download on a machine with a
stale cursor `d > 0` and feeding `DownloadInitAck` makes `observe()` build the
first segment from buffer offset `d` rather than offset 0. -/
theorem c10_stale_cursor_download {RR RW : Type} (m : Funcan.ClientMachine RR RW)
    (ix : Funcan.Index) (r : RR) (w : RW) (into_buf : List Nat → List Nat × Nat)
    (n : Nat) (hd0 : 0 < m.data_index)
    (hn : (into_buf m.data).2 = n) (hn4 : 4 < n)
    (hfit : m.data_index + 7 ≤ n) (hlen : n ≤ (into_buf m.data).1.length) :
    (m.read ix r).data_index = m.data_index ∧
    (m.write ix into_buf w).data_index = m.data_index ∧
    m.initial.data_index = 0 ∧
    (m.write ix into_buf w).transit (.DownloadInitAck ix) =
      some { m.write ix into_buf w with state := .DownloadingSegments ⟨false⟩ n } ∧
    Funcan.ClientMachine.observe
        { m.write ix into_buf w with state := .DownloadingSegments ⟨false⟩ n } =
      some (.Output (.DownloadSegment ⟨false⟩ (decide (m.data_index + 7 ≥ n)) 7
        (Funcan.b7OfList (Funcan.listSlice (into_buf m.data).1 m.data_index
          (m.data_index + 7)))),
        { m.write ix into_buf w with state := .DownloadingSegments ⟨false⟩ n }) := by
  refine ⟨rfl, rfl, rfl, ?_, ?_⟩
  · have hif : (if (into_buf m.data).2 ≤ 4 then
        Funcan.ClientState.InitSingleDownload (into_buf m.data).2
      else Funcan.ClientState.InitMultipleDownload (into_buf m.data).2) =
        .InitMultipleDownload n := by
      rw [hn]
      exact if_neg (by omega)
    simp only [Funcan.ClientMachine.write, hif, Funcan.ClientMachine.transit]
    rw [if_neg (fun h => h rfl)]
  · have hmin : min (m.data_index + 7) n = m.data_index + 7 := Nat.min_eq_left hfit
    simp only [Funcan.ClientMachine.observe, Funcan.ClientMachine.write, hmin]
    rw [if_pos]
    constructor
    · omega
    constructor
    · omega
    · rw [Funcan.listSlice_length]
      omega

/-- C10 witness: a machine with stale cursor 3 arming a 10-byte download
emits its first segment from buffer offset 3. -/
theorem c10_stale_cursor_download_witness :
    (Funcan.mCursor3.read (Funcan.Index.new 0x2000 0) ()).data_index =
      Funcan.mCursor3.data_index ∧
    (Funcan.mCursor3.write (Funcan.Index.new 0x2000 0) Funcan.ser10 ()).data_index =
      Funcan.mCursor3.data_index ∧
    Funcan.mCursor3.initial.data_index = 0 ∧
    (Funcan.mCursor3.write (Funcan.Index.new 0x2000 0) Funcan.ser10 ()).transit
        (.DownloadInitAck (Funcan.Index.new 0x2000 0)) =
      some { Funcan.mCursor3.write (Funcan.Index.new 0x2000 0) Funcan.ser10 () with
        state := .DownloadingSegments ⟨false⟩ 10 } ∧
    Funcan.ClientMachine.observe
        { Funcan.mCursor3.write (Funcan.Index.new 0x2000 0) Funcan.ser10 () with
          state := .DownloadingSegments ⟨false⟩ 10 } =
      some (.Output (.DownloadSegment ⟨false⟩
        (decide (Funcan.mCursor3.data_index + 7 ≥ 10)) 7
        (Funcan.b7OfList (Funcan.listSlice (Funcan.ser10 Funcan.mCursor3.data).1
          Funcan.mCursor3.data_index (Funcan.mCursor3.data_index + 7)))),
        { Funcan.mCursor3.write (Funcan.Index.new 0x2000 0) Funcan.ser10 () with
          state := .DownloadingSegments ⟨false⟩ 10 }) :=
  c10_stale_cursor_download Funcan.mCursor3 (Funcan.Index.new 0x2000 0) () ()
    Funcan.ser10 10 (by decide) rfl (by decide) (by decide) (by decide)
